import Mathlib

/-!
Verification of the sisl repository sources: the thread-local free-list
allocator (`src/fds/freelist_allocator.hpp`) and the asynchronous gRPC
server registry and lifecycle (`include/grpc_helper/rpc_server.hpp`).

Each C++ entity is shallowly embedded as an executable Lean definition;
machine pointers are modelled as natural-number addresses, the `int64_t`
list counter as `Int`, and container contents as lists.  Parts of the
repository referenced but not present in the source tree (the bodies of
`run`/`shutdown` in `rpc_server.cpp` and the call object in
`rpc_call.hpp`) are modelled from the specification and marked as such.
-/

namespace Sisl

/-- State of one `FreeListAllocatorImpl< MaxListCount, Size >`:
`m_head` is the singly linked free list (head first, each node identified
by its address), `m_list_count` is the signed 64-bit counter `m_list_count`.
The `free_list_header* m_head` chain is represented by the list of node
addresses in chain order. -/
structure FreeListState where
  m_head : List Nat
  m_list_count : Int
deriving DecidableEq, Repr

/-- Where `allocate` got the returned block from: the head of the free
list (carrying the address of that block), or a fresh `malloc` from the
system allocator. -/
inductive AllocSource where
  | fromSystem
  | fromList (ptr : Nat)
deriving DecidableEq, Repr

/-- What `deallocate` did with the block: handed it to `free` right away,
or pushed it onto the thread-local free list. -/
inductive DeallocAction where
  | freedToSystem
  | cachedOnList
deriving DecidableEq, Repr

namespace FreeListAllocatorImpl

/-- Embedding of `FreeListAllocatorImpl::allocate(size_needed)`:
if `m_head == nullptr` the block comes from `malloc`, otherwise the head
of the list is returned and `m_head = m_head->next`; in both branches
`m_list_count--` runs unconditionally before returning. -/
def allocate (size_needed : Nat) (s : FreeListState) : AllocSource × FreeListState :=
  match s.m_head with
  | [] => (AllocSource.fromSystem, { s with m_list_count := s.m_list_count - 1 })
  | p :: rest => (AllocSource.fromList p, { m_head := rest, m_list_count := s.m_list_count - 1 })

/-- Embedding of `FreeListAllocatorImpl::deallocate(mem, size_alloced)` for
template parameters `MaxListCount` (a `uint16_t`) and `Size`:
if `(size_alloced != Size) || (m_list_count == MaxListCount)` the block is
`free`d, otherwise it becomes the new head (`hdr->next = m_head; m_head = hdr;`)
and `m_list_count++`; both branches `return true`. -/
def deallocate (MaxListCount Size : Nat) (mem : Nat) (size_alloced : Nat)
    (s : FreeListState) : Bool × DeallocAction × FreeListState :=
  if size_alloced ≠ Size ∨ s.m_list_count = (MaxListCount : Int) then
    (true, DeallocAction.freedToSystem, s)
  else
    (true, DeallocAction.cachedOnList,
      { m_head := mem :: s.m_head, m_list_count := s.m_list_count + 1 })

end FreeListAllocatorImpl

/-- One call against a `FreeListAllocatorImpl` instance. -/
inductive FreeListOp where
  | alloc (size_needed : Nat)
  | dealloc (mem : Nat) (size_alloced : Nat)
deriving DecidableEq, Repr

/-- Runs a sequence of `allocate`/`deallocate` calls against one
`FreeListAllocatorImpl< MaxListCount, Size >` instance, threading the state. -/
def runFreeListOps (MaxListCount Size : Nat) : List FreeListOp → FreeListState → FreeListState
  | [], s => s
  | FreeListOp.alloc sz :: rest, s =>
      runFreeListOps MaxListCount Size rest (FreeListAllocatorImpl.allocate sz s).2
  | FreeListOp.dealloc m sz :: rest, s =>
      runFreeListOps MaxListCount Size rest
        (FreeListAllocatorImpl.deallocate MaxListCount Size m sz s).2.2

end Sisl

namespace GrpcHelper

/-- The `ENUM(ServerState, uint8_t, VOID, INITED, RUNNING, SHUTTING_DOWN, TERMINATED)`
declaration of `rpc_server.hpp`. -/
inductive ServerState where
  | VOID
  | INITED
  | RUNNING
  | SHUTTING_DOWN
  | TERMINATED
deriving DecidableEq, Repr

/-- A C `const char*` string constant, as returned by
`ServiceT::service_full_name()`: an address together with the character
data stored there.  Two distinct service types may have
character-for-character equal names at different addresses. -/
structure CharPtr where
  addr : Nat
  str : String
deriving DecidableEq, Repr

/-- Embedding of one `RpcStaticInfo< ServiceT, ReqT, RespT, streaming >` record as
constructed in `register_rpc`: the owning `AsyncService*` (an address), the three
user callbacks (opaque function identities), the registry index `rpc_idx` and the
method `name`, plus the streaming template argument the record was instantiated
with. -/
structure RpcStaticInfo where
  svc : Nat
  request_call_cb : Nat
  rpc_handler : Nat
  done_handler : Nat
  rpc_idx : Nat
  name : String
  streaming : Bool
deriving DecidableEq, Repr

/-- States of a call lifecycle object (`RpcData`), per the specification of
the call state machine. -/
inductive CallState where
  | AWAITING_CALL
  | PROCESSING
  | AWAITING_COMPLETION
  | DONE
deriving DecidableEq, Repr

/-- Embedding of one `RpcData< ServiceT, ReqT, RespT, streaming >` instance:
the registry index of its `RpcStaticInfo` (registry records are stable for the
lifetime of the server, so the index identifies the record), the completion-queue
index it was armed on, the streaming template argument it was instantiated
with, and its current lifecycle state. -/
structure RpcData where
  rpc_idx : Nat
  cq_idx : Nat
  streaming : Bool
  state : CallState
deriving DecidableEq, Repr

/-- Embedding of the `GrpcServer` object state: the atomic `m_state`, the
thread count, the services registered with `m_builder`, the
`std::unordered_map< const char*, ::grpc::Service* > m_services` (an
association list from name pointer to service object address, looked up by
pointer identity), the `m_rpc_registry` vector of owned records, and the
completion queues `m_cqs`, each holding the call objects currently posted to
it.  `m_next_ptr` models the system allocator handing out fresh addresses
for `new`. -/
structure GrpcServer where
  m_state : ServerState
  m_num_threads : Nat
  m_builder_services : List Nat
  m_services : List (CharPtr × Nat)
  m_rpc_registry : List RpcStaticInfo
  m_cqs : List (List RpcData)
  m_next_ptr : Nat
deriving DecidableEq, Repr

/-- Lookup in `m_services`: `std::unordered_map< const char*, ... >::find`
compares keys with the default `std::equal_to< const char* >`, i.e. pointer
equality, so only the address of the name takes part in the comparison. -/
def servicesFind : List (CharPtr × Nat) → CharPtr → Option Nat
  | [], _ => none
  | e :: rest, key => if e.1.addr = key.addr then some e.2 else servicesFind rest key

/-- Return value of the two registration member functions: the `bool`
result together with the assertion messages logged by `LOGMSG_ASSERT`
on the failure paths, and the server state after the call. -/
structure RegReturn where
  ret : Bool
  log : List String
  srv : GrpcServer
deriving DecidableEq, Repr

/-- Embedding of `GrpcServer::register_async_service< ServiceT >()`, called
with `name = ServiceT::service_full_name()`: if `m_services.find(name)`
succeeds the call logs `LOGMSG_ASSERT(false, "Duplicate register async
service")` and returns `false` without mutating anything; otherwise a fresh
`AsyncService` is allocated, registered with `m_builder`, inserted into
`m_services`, and the call returns `true`.  (`DEBUG_ASSERT_EQ` on `m_state`
is a debug-build assertion with no control-flow effect and is not modelled.) -/
def GrpcServer.register_async_service (srv : GrpcServer) (name : CharPtr) : RegReturn :=
  if (servicesFind srv.m_services name).isSome then
    ⟨false, ["Duplicate register async service"], srv⟩
  else
    let svc := srv.m_next_ptr
    ⟨true, [],
      { srv with
        m_builder_services := srv.m_builder_services ++ [svc]
        m_services := srv.m_services ++ [(name, svc)]
        m_next_ptr := srv.m_next_ptr + 1 }⟩

/-- The loop `for (auto i = 0u; i < m_cqs.size(); ++i)` of `register_rpc`:
for each completion queue index `i`, `RpcData< ServiceT, ReqT, RespT, false
>::make(m_rpc_registry[rpc_idx].get(), i)` is created — note the literal
`false` streaming argument in the source — and
`enqueue_call_request(*m_cqs[i])` posts it to queue `i`.  The posted object
waits for the next call (state `AWAITING_CALL`); that posting behaviour is
modelled from the spec, `rpc_call.hpp` being absent from the source tree. -/
def armAll (rpc_idx : Nat) : Nat → List (List RpcData) → List (List RpcData)
  | _, [] => []
  | i, cq :: rest =>
      (cq ++ [{ rpc_idx := rpc_idx, cq_idx := i, streaming := false,
                state := CallState.AWAITING_CALL }]) :: armAll rpc_idx (i + 1) rest

/-- Embedding of
`GrpcServer::register_rpc< ServiceT, ReqT, RespT, streaming >(name,
request_call_cb, rpc_handler, done_handler)`: fails (returning `false` and
logging) when the owning service was never registered; otherwise, under
`m_rpc_registry_mtx`, reads `rpc_idx = m_rpc_registry.size()`, emplaces a new
`RpcStaticInfo< ServiceT, ReqT, RespT, false >` — the source instantiates it
with a literal `false`, not with the `streaming` template parameter — and arms
one `RpcData< ServiceT, ReqT, RespT, false >` per completion queue.
(`DEBUG_ASSERT_EQ(ServerState::RUNNING, m_state, ...)` is a debug-build
assertion with no control-flow effect and is not modelled.) -/
def GrpcServer.register_rpc (srv : GrpcServer) (svcFullName : CharPtr) (streaming : Bool)
    (name : String) (request_call_cb rpc_handler done_handler : Nat) : RegReturn :=
  match servicesFind srv.m_services svcFullName with
  | none => ⟨false, ["RPC registration attempted before service is registered"], srv⟩
  | some svc =>
    let rpc_idx := srv.m_rpc_registry.length
    let info : RpcStaticInfo :=
      { svc := svc, request_call_cb := request_call_cb, rpc_handler := rpc_handler,
        done_handler := done_handler, rpc_idx := rpc_idx, name := name,
        streaming := false }
    ⟨true, [],
      { srv with
        m_rpc_registry := srv.m_rpc_registry ++ [info]
        m_cqs := armAll rpc_idx 0 srv.m_cqs }⟩

/-- Modelled from the spec: the `GrpcServer` constructor body lives in
`rpc_server.cpp`, which is not in the source tree.  Per the spec, construction
builds the listener, allocates `thread_count` independent completion queues and
sets the state to INITED; `m_state` starts at VOID from its member initializer. -/
def GrpcServer.construct (srv : GrpcServer) (threads : Nat) : GrpcServer :=
  if srv.m_state = ServerState.VOID then
    { srv with
      m_state := ServerState.INITED
      m_num_threads := threads
      m_cqs := List.replicate threads [] }
  else srv

/-- Modelled from the spec: `GrpcServer::run` lives in `rpc_server.cpp`, which
is not in the source tree.  Per the spec it is valid only in INITED state and
transitions the server to RUNNING, spawning one worker thread per queue; any
other use is undefined misuse and is modelled as leaving the state unchanged. -/
def GrpcServer.run (srv : GrpcServer) : GrpcServer :=
  if srv.m_state = ServerState.INITED then { srv with m_state := ServerState.RUNNING }
  else srv

/-- Modelled from the spec: `GrpcServer::shutdown` lives in `rpc_server.cpp`,
which is not in the source tree.  Per the spec it is valid from RUNNING and
sets the state to SHUTTING_DOWN (then drains and joins); it is an idempotent
no-op when already SHUTTING_DOWN or TERMINATED. -/
def GrpcServer.shutdown (srv : GrpcServer) : GrpcServer :=
  if srv.m_state = ServerState.RUNNING then { srv with m_state := ServerState.SHUTTING_DOWN }
  else srv

/-- Modelled from the spec: the completion of shutdown — all worker threads
joined — sets the state from SHUTTING_DOWN to TERMINATED. -/
def GrpcServer.join_threads (srv : GrpcServer) : GrpcServer :=
  if srv.m_state = ServerState.SHUTTING_DOWN then { srv with m_state := ServerState.TERMINATED }
  else srv

/-- The member-initializer state of a `GrpcServer` object before its
constructor body runs: `m_state{ServerState::VOID}`, `m_num_threads{0}`,
empty containers. -/
def GrpcServer.fresh : GrpcServer :=
  { m_state := ServerState.VOID, m_num_threads := 0, m_builder_services := [],
    m_services := [], m_rpc_registry := [], m_cqs := [], m_next_ptr := 1 }

/-- One lifecycle or registration operation against a `GrpcServer`. -/
inductive ServerOp where
  | constructOp (threads : Nat)
  | regService (name : CharPtr)
  | regRpc (svcFullName : CharPtr) (streaming : Bool) (name : String)
      (request_call_cb rpc_handler done_handler : Nat)
  | runOp
  | shutdownOp
  | joinOp
deriving DecidableEq, Repr

/-- Applies one operation to the server state (registration return values
are discarded; only the resulting server state is threaded). -/
def applyServerOp : ServerOp → GrpcServer → GrpcServer
  | ServerOp.constructOp threads, srv => srv.construct threads
  | ServerOp.regService name, srv => (srv.register_async_service name).srv
  | ServerOp.regRpc svcFullName strm name c1 c2 c3, srv =>
      (srv.register_rpc svcFullName strm name c1 c2 c3).srv
  | ServerOp.runOp, srv => srv.run
  | ServerOp.shutdownOp, srv => srv.shutdown
  | ServerOp.joinOp, srv => srv.join_threads

/-- Runs a sequence of operations against the server, first one first. -/
def runServerOps : List ServerOp → GrpcServer → GrpcServer
  | [], srv => srv
  | op :: rest, srv => runServerOps rest (applyServerOp op srv)

/-- Position of a server state along the lifecycle order
VOID → INITED → RUNNING → SHUTTING_DOWN → TERMINATED. -/
def stateRank : ServerState → Nat
  | ServerState.VOID => 0
  | ServerState.INITED => 1
  | ServerState.RUNNING => 2
  | ServerState.SHUTTING_DOWN => 3
  | ServerState.TERMINATED => 4

/-- Registers a list of services in order, collecting the return value of each call
value along with the final server state. -/
def registerAll : List CharPtr → GrpcServer → List Bool × GrpcServer
  | [], srv => ([], srv)
  | n :: rest, srv =>
    let r := srv.register_async_service n
    let rr := registerAll rest r.srv
    (r.ret :: rr.1, rr.2)

/-- Observable events while a call lifecycle object advances: a replacement
slot armed for a (method, queue) pair, the user handler starting for a
(method, queue) pair, an awaiting slot discarded at shutdown. -/
inductive CallEvent where
  | armed (rpc_idx cq_idx : Nat)
  | handler_start (rpc_idx cq_idx : Nat)
  | discarded (rpc_idx cq_idx : Nat)
deriving DecidableEq, Repr

/-- Result of advancing one call object: the events in the order they
happen, the slot population of the queue at the instant the handler
callback begins (when it does), and the final slot population. -/
structure AdvanceOutcome where
  events : List CallEvent
  slots_at_handler : Option (List RpcData)
  slots : List RpcData
deriving DecidableEq, Repr

/-- Modelled from the spec: the AWAITING_CALL transition of
`RpcData::advance(ok)` — `rpc_call.hpp` is not in the source tree.  Per the
spec, when the slot at index `i` of its queue is in AWAITING_CALL and `ok`
holds, it immediately arms a sibling replacement object in AWAITING_CALL for
the same (method, queue) pair and only then invokes the handler of the method
callback; when `ok` is false the object transitions directly to DONE and is
discarded without invoking any user callback. -/
def advanceAwaiting (slots : List RpcData) (i : Nat) (ok : Bool) : AdvanceOutcome :=
  match slots[i]? with
  | none => ⟨[], none, slots⟩
  | some d =>
    if d.state = CallState.AWAITING_CALL then
      if ok then
        let slots1 := slots.set i { d with state := CallState.PROCESSING } ++
          [{ d with state := CallState.AWAITING_CALL }]
        ⟨[CallEvent.armed d.rpc_idx d.cq_idx, CallEvent.handler_start d.rpc_idx d.cq_idx],
          some slots1, slots1⟩
      else
        ⟨[CallEvent.discarded d.rpc_idx d.cq_idx], none, slots.eraseIdx i⟩
    else ⟨[], none, slots⟩

/-- The canonical full name of a sample service: character data
`"EchoService"` stored at address 100. -/
def echoSvcName : CharPtr := ⟨100, "EchoService"⟩

/-- A server constructed with two worker threads whose sample service has
been registered; still INITED, not yet running. -/
def sampleInitedServer : GrpcServer :=
  ((GrpcServer.fresh.construct 2).register_async_service echoSvcName).srv

/-- The sample server after `run`: RUNNING with two live completion queues. -/
def sampleRunningServer : GrpcServer := sampleInitedServer.run

/-- A sample call object armed on queue 0 for the method at registry index 0. -/
def sampleSlot : RpcData :=
  { rpc_idx := 0, cq_idx := 0, streaming := false, state := CallState.AWAITING_CALL }

end GrpcHelper

open Sisl GrpcHelper

/-- C9: `FreeListAllocatorImpl::deallocate` returns `true` for every input; it
pushes the block onto the free list as the new head exactly when the supplied
size equals the compile-time `Size` and the list counter is not equal to
`MaxListCount`; in every other case it releases the block to the system
allocator at once, leaving the list state unchanged; and an `allocate` on the
resulting non-empty list returns the most recently cached block (LIFO reuse). -/
theorem deallocate_cache_and_lifo (MaxListCount Size mem size_alloced size_needed : Nat)
    (s : FreeListState) :
    ((FreeListAllocatorImpl.deallocate MaxListCount Size mem size_alloced s).1 = true)
    ∧ ((FreeListAllocatorImpl.deallocate MaxListCount Size mem size_alloced s).2.1 =
          DeallocAction.cachedOnList ↔
        (size_alloced = Size ∧ s.m_list_count ≠ (MaxListCount : Int)))
    ∧ (¬ (size_alloced = Size ∧ s.m_list_count ≠ (MaxListCount : Int)) →
        (FreeListAllocatorImpl.deallocate MaxListCount Size mem size_alloced s).2 =
          (DeallocAction.freedToSystem, s))
    ∧ (size_alloced = Size → s.m_list_count ≠ (MaxListCount : Int) →
        (FreeListAllocatorImpl.deallocate MaxListCount Size mem size_alloced s).2.2.m_head
            = mem :: s.m_head
        ∧ (FreeListAllocatorImpl.allocate size_needed
              (FreeListAllocatorImpl.deallocate MaxListCount Size mem size_alloced s).2.2).1
            = AllocSource.fromList mem) := by
  unfold FreeListAllocatorImpl.deallocate
  by_cases h : size_alloced ≠ Size ∨ s.m_list_count = (MaxListCount : Int)
  · simp only [if_pos h]
    refine ⟨by trivial, ?_, fun _ => by trivial, ?_⟩
    · simp only [iff_false, ne_eq, not_and, not_not]
      constructor
      · intro hc; cases hc
      · intro hc
        rcases h with h | h
        · exact absurd hc.1 h
        · exact absurd h hc.2
    · intro h1 h2
      rcases h with h | h
      · exact absurd h1 h
      · exact absurd h h2
  · simp only [if_neg h]
    push_neg at h
    refine ⟨by trivial, ?_, ?_, ?_⟩
    · simp only [true_iff]
      exact ⟨h.1, h.2⟩
    · intro hc; exact absurd ⟨h.1, h.2⟩ hc
    · intro _ _
      exact ⟨by trivial, by trivial⟩

/-- C9 witness: the theorem instantiated at `MaxListCount = 2`, `Size = 8`,
block address 7, matching size, on the empty free list with counter 0. -/
theorem deallocate_cache_and_lifo_at_instance :
    ((FreeListAllocatorImpl.deallocate 2 8 7 8 ⟨[], 0⟩).1 = true)
    ∧ ((FreeListAllocatorImpl.deallocate 2 8 7 8 ⟨[], 0⟩).2.1 =
          DeallocAction.cachedOnList ↔
        (8 = 8 ∧ (Sisl.FreeListState.mk [] 0).m_list_count ≠ ((2 : Nat) : Int)))
    ∧ (¬ ((8 : Nat) = 8 ∧ (Sisl.FreeListState.mk [] 0).m_list_count ≠ ((2 : Nat) : Int)) →
        (FreeListAllocatorImpl.deallocate 2 8 7 8 ⟨[], 0⟩).2 =
          (DeallocAction.freedToSystem, ⟨[], 0⟩))
    ∧ ((8 : Nat) = 8 → (Sisl.FreeListState.mk [] 0).m_list_count ≠ ((2 : Nat) : Int) →
        (FreeListAllocatorImpl.deallocate 2 8 7 8 ⟨[], 0⟩).2.2.m_head
            = 7 :: (Sisl.FreeListState.mk [] 0).m_head
        ∧ (FreeListAllocatorImpl.allocate 8
              (FreeListAllocatorImpl.deallocate 2 8 7 8 ⟨[], 0⟩).2.2).1
            = AllocSource.fromList 7) :=
  deallocate_cache_and_lifo 2 8 7 8 8 ⟨[], 0⟩

/-- C10: `FreeListAllocatorImpl::allocate` decrements `m_list_count` on every
call, including when the free list is empty and the block comes from the
system allocator; consequently the counter can become negative and cease to
equal the number of nodes on the list (after two allocations from the empty
list the counter is -2 and the list is empty), and some interleaving of calls
leaves more than `MaxListCount` blocks on the list (with `MaxListCount = 1`,
two blocks end up cached). -/
theorem allocate_always_decrements :
    (∀ (size_needed : Nat) (s : FreeListState),
        (FreeListAllocatorImpl.allocate size_needed s).2.m_list_count =
          s.m_list_count - 1)
    ∧ ((runFreeListOps 1 8 [FreeListOp.alloc 8, FreeListOp.alloc 8]
          ⟨[], 0⟩).m_list_count < 0
        ∧ (runFreeListOps 1 8 [FreeListOp.alloc 8, FreeListOp.alloc 8]
          ⟨[], 0⟩).m_list_count ≠
          ((runFreeListOps 1 8 [FreeListOp.alloc 8, FreeListOp.alloc 8]
          ⟨[], 0⟩).m_head.length : Int))
    ∧ 1 < (runFreeListOps 1 8
          [FreeListOp.alloc 8, FreeListOp.alloc 8,
           FreeListOp.dealloc 5 8, FreeListOp.dealloc 6 8] ⟨[], 0⟩).m_head.length := by
  refine ⟨?_, by decide, by decide⟩
  intro sz s
  cases s with
  | mk head count =>
    cases head with
    | nil => rfl
    | cons p rest => rfl

theorem armAll_length (r : Nat) (i : Nat) (cqs : List (List RpcData)) :
    (armAll r i cqs).length = cqs.length := by
  induction cqs generalizing i with
  | nil => rfl
  | cons cq rest ih => simp [armAll, ih]

theorem armAll_getElem? (r : Nat) (cqs : List (List RpcData)) (i j : Nat) :
    (armAll r i cqs)[j]? = (cqs[j]?).map
      (fun cq => cq ++ [{ rpc_idx := r, cq_idx := i + j, streaming := false,
                          state := CallState.AWAITING_CALL }]) := by
  induction cqs generalizing i j with
  | nil => simp [armAll]
  | cons cq rest ih =>
    cases j with
    | zero => simp [armAll]
    | succ j' =>
      simp only [armAll, List.getElem?_cons_succ]
      rw [ih (i + 1) j', show i + 1 + j' = i + (j' + 1) from by omega]

theorem armAll_sum (r : Nat) (i : Nat) (cqs : List (List RpcData)) :
    ((armAll r i cqs).map List.length).sum = (cqs.map List.length).sum + cqs.length := by
  induction cqs generalizing i with
  | nil => rfl
  | cons cq rest ih =>
    simp only [armAll, List.map_cons, List.sum_cons, List.length_cons, ih (i + 1),
      List.length_append, List.length_cons, List.length_nil]
    omega

theorem servicesFind_append_single (svcs : List (CharPtr × Nat)) (e : CharPtr × Nat)
    (key : CharPtr) (h : servicesFind svcs key = none) :
    servicesFind (svcs ++ [e]) key =
      if e.1.addr = key.addr then some e.2 else none := by
  induction svcs with
  | nil => rfl
  | cons x rest ih =>
    have hx : ¬ x.1.addr = key.addr := by
      intro hx
      unfold servicesFind at h
      rw [if_pos hx] at h
      cases h
    show (if x.1.addr = key.addr then some x.2 else servicesFind (rest ++ [e]) key) = _
    rw [if_neg hx]
    apply ih
    unfold servicesFind at h
    rwa [if_neg hx] at h

theorem register_async_service_of_not_found (srv : GrpcServer) (name : CharPtr)
    (h : servicesFind srv.m_services name = none) :
    srv.register_async_service name =
      ⟨true, [],
        { srv with
          m_builder_services := srv.m_builder_services ++ [srv.m_next_ptr]
          m_services := srv.m_services ++ [(name, srv.m_next_ptr)]
          m_next_ptr := srv.m_next_ptr + 1 }⟩ := by
  unfold GrpcServer.register_async_service
  rw [h]
  rfl

theorem register_async_service_of_found (srv : GrpcServer) (name : CharPtr)
    (h : (servicesFind srv.m_services name).isSome = true) :
    srv.register_async_service name =
      ⟨false, ["Duplicate register async service"], srv⟩ := by
  unfold GrpcServer.register_async_service
  rw [if_pos h]

theorem register_async_service_m_state (srv : GrpcServer) (name : CharPtr) :
    (srv.register_async_service name).srv.m_state = srv.m_state := by
  unfold GrpcServer.register_async_service
  split <;> rfl

theorem register_rpc_m_state (srv : GrpcServer) (svcFullName : CharPtr) (strm : Bool)
    (name : String) (c1 c2 c3 : Nat) :
    (srv.register_rpc svcFullName strm name c1 c2 c3).srv.m_state = srv.m_state := by
  unfold GrpcServer.register_rpc
  cases servicesFind srv.m_services svcFullName <;> rfl

/-- C1: a `register_rpc` call made while the server is RUNNING with
`thread_count` completion queues and whose owning service is registered
returns `true`, appends exactly one `RpcStaticInfo` record to the RPC
registry, and arms exactly one fresh call lifecycle object per completion
queue — `thread_count` objects in total — each posted to its own queue in
the AWAITING_CALL state, all before the call returns. -/
theorem register_rpc_arms_one_slot_per_queue (srv : GrpcServer) (svcFullName : CharPtr)
    (strm : Bool) (name : String) (c1 c2 c3 : Nat) (tc : Nat)
    (hstate : srv.m_state = ServerState.RUNNING)
    (hcqs : srv.m_cqs.length = tc)
    (hsvc : (servicesFind srv.m_services svcFullName).isSome = true) :
    ((srv.register_rpc svcFullName strm name c1 c2 c3).ret = true)
    ∧ (∃ svc, servicesFind srv.m_services svcFullName = some svc
        ∧ (srv.register_rpc svcFullName strm name c1 c2 c3).srv.m_rpc_registry =
            srv.m_rpc_registry ++
              [{ svc := svc, request_call_cb := c1, rpc_handler := c2,
                 done_handler := c3, rpc_idx := srv.m_rpc_registry.length,
                 name := name, streaming := false }])
    ∧ ((srv.register_rpc svcFullName strm name c1 c2 c3).srv.m_cqs.length = tc)
    ∧ (∀ j : Nat, (srv.register_rpc svcFullName strm name c1 c2 c3).srv.m_cqs[j]? =
        (srv.m_cqs[j]?).map (fun cq => cq ++
          [{ rpc_idx := srv.m_rpc_registry.length, cq_idx := j, streaming := false,
             state := CallState.AWAITING_CALL }]))
    ∧ (((srv.register_rpc svcFullName strm name c1 c2 c3).srv.m_cqs.map List.length).sum =
        (srv.m_cqs.map List.length).sum + tc) := by
  obtain ⟨svc, hsvc'⟩ := Option.isSome_iff_exists.mp hsvc
  refine ⟨?_, ⟨svc, hsvc', ?_⟩, ?_, ?_, ?_⟩ <;>
    simp [GrpcServer.register_rpc, hsvc', armAll_length, armAll_getElem?, armAll_sum, hcqs]

/-- C1 witness: the theorem applied to the sample RUNNING server with two
completion queues and the sample service registered. -/
theorem register_rpc_arms_one_slot_per_queue_at_instance :
    (sampleRunningServer.register_rpc echoSvcName false "echo" 1 2 0).ret = true :=
  (register_rpc_arms_one_slot_per_queue sampleRunningServer echoSvcName false "echo" 1 2 0 2
    rfl rfl rfl).1

/-- C2 (code bug in the source): `register_rpc` called with the streaming
template argument `true` still creates an `RpcStaticInfo` record and call
lifecycle objects whose streaming shape is `false` — the source instantiates
`RpcStaticInfo< ServiceT, ReqT, RespT, false >` and
`RpcData< ServiceT, ReqT, RespT, false >` with a literal `false` instead of
forwarding its `streaming` template parameter. -/
theorem register_rpc_streaming_flag_dropped :
    ((sampleRunningServer.register_rpc echoSvcName true "stream_echo" 1 2 0).ret = true)
    ∧ ((sampleRunningServer.register_rpc echoSvcName true
          "stream_echo" 1 2 0).srv.m_rpc_registry.map RpcStaticInfo.streaming = [false])
    ∧ ((sampleRunningServer.register_rpc echoSvcName true "stream_echo" 1 2 0).srv.m_cqs.map
        (fun cq => cq.map RpcData.streaming) = [[false], [false]]) := by
  refine ⟨rfl, rfl, rfl⟩

/-- C4: a `register_rpc` call whose owning service was never registered
returns `false`, logs the assertion message, and leaves the server — RPC
registry and completion queues included — completely unchanged. -/
theorem register_rpc_unregistered_service_rejected (srv : GrpcServer) (svcFullName : CharPtr)
    (strm : Bool) (name : String) (c1 c2 c3 : Nat)
    (h : servicesFind srv.m_services svcFullName = none) :
    srv.register_rpc svcFullName strm name c1 c2 c3 =
      ⟨false, ["RPC registration attempted before service is registered"], srv⟩ := by
  unfold GrpcServer.register_rpc
  rw [h]

/-- C4 witness: registering an RPC on a freshly constructed server with no
service registered fails and changes nothing. -/
theorem register_rpc_unregistered_service_rejected_at_instance :
    GrpcServer.fresh.register_rpc echoSvcName false "echo" 1 2 0 =
      ⟨false, ["RPC registration attempted before service is registered"], GrpcServer.fresh⟩ :=
  register_rpc_unregistered_service_rejected GrpcServer.fresh echoSvcName false "echo" 1 2 0 rfl

/-- C7: when a call arrives (`ok = true`) at a slot in AWAITING_CALL, the
produced events are exactly the replacement being armed followed by the
handler starting — the replacement for the same (method, queue) pair is armed
strictly before the handler callback begins — and the slot population of the queue
at the instant the handler starts contains an AWAITING_CALL slot for that
same (method, queue) pair. -/
theorem replacement_armed_before_handler (slots : List RpcData) (i : Nat) (d : RpcData)
    (hd : slots[i]? = some d) (hstate : d.state = CallState.AWAITING_CALL) :
    ((advanceAwaiting slots i true).events =
        [CallEvent.armed d.rpc_idx d.cq_idx, CallEvent.handler_start d.rpc_idx d.cq_idx])
    ∧ (∃ l, (advanceAwaiting slots i true).slots_at_handler = some l
        ∧ ∃ x, x ∈ l ∧ x.rpc_idx = d.rpc_idx ∧ x.cq_idx = d.cq_idx
            ∧ x.state = CallState.AWAITING_CALL) := by
  have h1 : advanceAwaiting slots i true =
      ⟨[CallEvent.armed d.rpc_idx d.cq_idx, CallEvent.handler_start d.rpc_idx d.cq_idx],
        some (slots.set i { d with state := CallState.PROCESSING } ++
          [{ d with state := CallState.AWAITING_CALL }]),
        slots.set i { d with state := CallState.PROCESSING } ++
          [{ d with state := CallState.AWAITING_CALL }]⟩ := by
    simp [advanceAwaiting, hd, hstate]
  rw [h1]
  refine ⟨rfl, _, rfl, { d with state := CallState.AWAITING_CALL }, ?_, rfl, rfl, rfl⟩
  exact List.mem_append_right _ (List.mem_singleton.mpr rfl)

/-- C7 witness: the theorem applied to a one-slot queue holding the sample
awaiting slot. -/
theorem replacement_armed_before_handler_at_instance :
    (advanceAwaiting [sampleSlot] 0 true).events =
      [CallEvent.armed sampleSlot.rpc_idx sampleSlot.cq_idx,
       CallEvent.handler_start sampleSlot.rpc_idx sampleSlot.cq_idx] :=
  (replacement_armed_before_handler [sampleSlot] 0 sampleSlot rfl rfl).1

/-- C3: a `register_async_service` call whose service name is already present
in `m_services` returns `false`, logs the duplicate-registration assertion
message, and leaves the server — service map and the rest of the registry —
unchanged; and any sequence of service registrations with pairwise distinct
names (names stored consistently in memory, none present beforehand)
succeeds in full, every call returning `true`. -/
theorem register_async_service_duplicate_and_distinct :
    (∀ (srv : GrpcServer) (name : CharPtr),
        (servicesFind srv.m_services name).isSome = true →
        srv.register_async_service name =
          ⟨false, ["Duplicate register async service"], srv⟩)
    ∧ (∀ (names : List CharPtr) (srv : GrpcServer),
        (∀ n ∈ names, servicesFind srv.m_services n = none) →
        names.Pairwise (fun a b => a.str ≠ b.str) →
        (∀ a ∈ names, ∀ b ∈ names, a.addr = b.addr → a.str = b.str) →
        (registerAll names srv).1 = List.replicate names.length true) := by
  constructor
  · intro srv name h
    exact register_async_service_of_found srv name h
  · intro names
    induction names with
    | nil => intro srv _ _ _; rfl
    | cons n rest ih =>
      intro srv hfresh hdist hmem
      rw [List.pairwise_cons] at hdist
      have hn : servicesFind srv.m_services n = none := hfresh n (List.mem_cons_self n rest)
      have hreg := register_async_service_of_not_found srv n hn
      show ((srv.register_async_service n).ret ::
          (registerAll rest (srv.register_async_service n).srv).1) =
        List.replicate (n :: rest).length true
      rw [hreg]
      simp only [List.length_cons, List.replicate_succ]
      refine congrArg (List.cons true) (ih _ ?_ hdist.2 ?_)
      · intro m hm
        have haddr : ¬ ((n, srv.m_next_ptr).1.addr = m.addr) := by
          intro haddr
          exact hdist.1 m hm
            (hmem n (List.mem_cons_self n rest) m (List.mem_cons_of_mem n hm) haddr)
        show servicesFind (srv.m_services ++ [(n, srv.m_next_ptr)]) m = none
        rw [servicesFind_append_single srv.m_services (n, srv.m_next_ptr) m
          (hfresh m (List.mem_cons_of_mem n hm)), if_neg haddr]
      · intro a ha b hb
        exact hmem a (List.mem_cons_of_mem n ha) b (List.mem_cons_of_mem n hb)

/-- C3 witness: re-registering the sample service on the sample server fails
and changes nothing, while registering two fresh distinctly named services on
a fresh server succeeds twice. -/
theorem register_async_service_duplicate_and_distinct_at_instance :
    (sampleInitedServer.register_async_service echoSvcName =
      ⟨false, ["Duplicate register async service"], sampleInitedServer⟩)
    ∧ (registerAll [⟨1, "a"⟩, ⟨2, "b"⟩] GrpcServer.fresh).1 = List.replicate 2 true :=
  ⟨register_async_service_duplicate_and_distinct.1 sampleInitedServer echoSvcName rfl,
   register_async_service_duplicate_and_distinct.2 [⟨1, "a"⟩, ⟨2, "b"⟩] GrpcServer.fresh
     (by decide) (by decide) (by decide)⟩

/-- C5: a successful `register_rpc` stores the new record at index
`rpc_idx = m_rpc_registry.size()` captured at the moment of the append and
stamps that index into the record itself; every server operation only ever
appends to the RPC registry (never reorders or erases records); hence over
any later operation sequence an assigned index keeps denoting the very same
record. -/
theorem rpc_registry_append_only_stable (srv : GrpcServer) (svcFullName : CharPtr)
    (strm : Bool) (name : String) (c1 c2 c3 : Nat)
    (hsvc : (servicesFind srv.m_services svcFullName).isSome = true) :
    (∃ info : RpcStaticInfo,
        (srv.register_rpc svcFullName strm name c1 c2
            c3).srv.m_rpc_registry[srv.m_rpc_registry.length]? = some info
        ∧ info.rpc_idx = srv.m_rpc_registry.length
        ∧ (srv.register_rpc svcFullName strm name c1 c2 c3).ret = true
        ∧ (srv.register_rpc svcFullName strm name c1 c2 c3).srv.m_rpc_registry.length
            = srv.m_rpc_registry.length + 1)
    ∧ (∀ (op : ServerOp) (s : GrpcServer), ∃ t,
        (applyServerOp op s).m_rpc_registry = s.m_rpc_registry ++ t)
    ∧ (∀ (ops : List ServerOp) (s : GrpcServer) (i : Nat),
        i < s.m_rpc_registry.length →
        (runServerOps ops s).m_rpc_registry[i]? = s.m_rpc_registry[i]?) := by
  have hext : ∀ (op : ServerOp) (s : GrpcServer), ∃ t,
      (applyServerOp op s).m_rpc_registry = s.m_rpc_registry ++ t := by
    intro op s
    cases op with
    | constructOp threads =>
        refine ⟨[], ?_⟩
        simp only [applyServerOp, GrpcServer.construct]
        split <;> simp
    | regService nm =>
        refine ⟨[], ?_⟩
        simp only [applyServerOp, GrpcServer.register_async_service]
        split <;> simp
    | regRpc a b c d e f =>
        simp only [applyServerOp, GrpcServer.register_rpc]
        cases h : servicesFind s.m_services a with
        | none => exact ⟨[], by simp⟩
        | some svc =>
            exact ⟨[{ svc := svc, request_call_cb := d, rpc_handler := e,
                      done_handler := f, rpc_idx := s.m_rpc_registry.length,
                      name := c, streaming := false }], by simp⟩
    | runOp =>
        refine ⟨[], ?_⟩
        simp only [applyServerOp, GrpcServer.run]
        split <;> simp
    | shutdownOp =>
        refine ⟨[], ?_⟩
        simp only [applyServerOp, GrpcServer.shutdown]
        split <;> simp
    | joinOp =>
        refine ⟨[], ?_⟩
        simp only [applyServerOp, GrpcServer.join_threads]
        split <;> simp
  refine ⟨?_, hext, ?_⟩
  · obtain ⟨svc, hsvc'⟩ := Option.isSome_iff_exists.mp hsvc
    refine ⟨{ svc := svc, request_call_cb := c1, rpc_handler := c2, done_handler := c3,
              rpc_idx := srv.m_rpc_registry.length, name := name, streaming := false },
            ?_, rfl, ?_, ?_⟩ <;>
      simp [GrpcServer.register_rpc, hsvc', List.getElem?_concat_length]
  · intro ops
    induction ops with
    | nil => intro s i hi; rfl
    | cons op rest ih =>
      intro s i hi
      obtain ⟨t, ht⟩ := hext op s
      have hlen : i < (applyServerOp op s).m_rpc_registry.length := by
        rw [ht, List.length_append]; omega
      have hrest := ih (applyServerOp op s) i hlen
      show (runServerOps rest (applyServerOp op s)).m_rpc_registry[i]? = _
      rw [hrest, ht, List.getElem?_append_left hi]

/-- C5 witness: after registering one RPC on the sample RUNNING server, the
record sits at index 0 and carries `rpc_idx = 0`. -/
theorem rpc_registry_append_only_stable_at_instance :
    ∃ info : RpcStaticInfo,
      (sampleRunningServer.register_rpc echoSvcName false "echo" 1 2
          0).srv.m_rpc_registry[sampleRunningServer.m_rpc_registry.length]? = some info
      ∧ info.rpc_idx = sampleRunningServer.m_rpc_registry.length
      ∧ (sampleRunningServer.register_rpc echoSvcName false "echo" 1 2 0).ret = true
      ∧ (sampleRunningServer.register_rpc echoSvcName false "echo" 1 2
          0).srv.m_rpc_registry.length = sampleRunningServer.m_rpc_registry.length + 1 :=
  (rpc_registry_append_only_stable sampleRunningServer echoSvcName false "echo" 1 2 0 rfl).1

/-- C6: the server state only ever advances along VOID → INITED → RUNNING →
SHUTTING_DOWN → TERMINATED: each single operation either leaves the
rank of the state unchanged or advances it by exactly one (never backward and never
skipping a state), and over any operation sequence the rank is monotone. -/
theorem server_state_monotone_forward :
    (∀ (op : ServerOp) (s : GrpcServer),
        stateRank (applyServerOp op s).m_state = stateRank s.m_state
        ∨ stateRank (applyServerOp op s).m_state = stateRank s.m_state + 1)
    ∧ (∀ (ops : List ServerOp) (s : GrpcServer),
        stateRank s.m_state ≤ stateRank (runServerOps ops s).m_state) := by
  have hstep : ∀ (op : ServerOp) (s : GrpcServer),
      stateRank (applyServerOp op s).m_state = stateRank s.m_state
      ∨ stateRank (applyServerOp op s).m_state = stateRank s.m_state + 1 := by
    intro op s
    cases op with
    | constructOp threads =>
        simp only [applyServerOp, GrpcServer.construct]
        by_cases h : s.m_state = ServerState.VOID
        · rw [if_pos h, h]; right; rfl
        · rw [if_neg h]; left; rfl
    | regService nm =>
        left
        exact congrArg stateRank (register_async_service_m_state s nm)
    | regRpc a b c d e f =>
        left
        exact congrArg stateRank (register_rpc_m_state s a b c d e f)
    | runOp =>
        simp only [applyServerOp, GrpcServer.run]
        by_cases h : s.m_state = ServerState.INITED
        · rw [if_pos h, h]; right; rfl
        · rw [if_neg h]; left; rfl
    | shutdownOp =>
        simp only [applyServerOp, GrpcServer.shutdown]
        by_cases h : s.m_state = ServerState.RUNNING
        · rw [if_pos h, h]; right; rfl
        · rw [if_neg h]; left; rfl
    | joinOp =>
        simp only [applyServerOp, GrpcServer.join_threads]
        by_cases h : s.m_state = ServerState.SHUTTING_DOWN
        · rw [if_pos h, h]; right; rfl
        · rw [if_neg h]; left; rfl
  refine ⟨hstep, ?_⟩
  intro ops
  induction ops with
  | nil => intro s; exact le_refl _
  | cons op rest ih =>
    intro s
    have h1 : stateRank s.m_state ≤ stateRank (applyServerOp op s).m_state := by
      rcases hstep op s with h | h <;> omega
    exact le_trans h1 (ih (applyServerOp op s))

/-- C8: the service map is keyed by pointer identity of
`ServiceT::service_full_name()`, not by string contents: re-registering the
same name pointer fails, while a second name with the same characters as the first but stored at a different address registers successfully
alongside it. -/
theorem services_keyed_by_pointer_identity (srv : GrpcServer) (n1 n2 : CharPtr)
    (h1 : servicesFind srv.m_services n1 = none)
    (h2 : servicesFind srv.m_services n2 = none)
    (haddr : n1.addr ≠ n2.addr) (hstr : n1.str = n2.str) :
    ((srv.register_async_service n1).ret = true)
    ∧ (((srv.register_async_service n1).srv.register_async_service n1).ret = false)
    ∧ (((srv.register_async_service n1).srv.register_async_service n2).ret = true) := by
  have hreg := register_async_service_of_not_found srv n1 h1
  have hfind1 : servicesFind (srv.register_async_service n1).srv.m_services n1
      = some srv.m_next_ptr := by
    rw [hreg]
    show servicesFind (srv.m_services ++ [(n1, srv.m_next_ptr)]) n1 = some srv.m_next_ptr
    rw [servicesFind_append_single _ _ _ h1, if_pos rfl]
  have hfind2 : servicesFind (srv.register_async_service n1).srv.m_services n2 = none := by
    rw [hreg]
    show servicesFind (srv.m_services ++ [(n1, srv.m_next_ptr)]) n2 = none
    rw [servicesFind_append_single _ _ _ h2, if_neg haddr]
  refine ⟨by rw [hreg], ?_, ?_⟩
  · rw [register_async_service_of_found _ n1 (by rw [hfind1]; rfl)]
  · rw [register_async_service_of_not_found _ n2 hfind2]

/-- C8 witness: on a fresh server, the name at address 1 registers, a second
registration through the same pointer fails, and an equal string at address 2
registers successfully. -/
theorem services_keyed_by_pointer_identity_at_instance :
    ((GrpcServer.fresh.register_async_service ⟨1, "svc"⟩).ret = true)
    ∧ (((GrpcServer.fresh.register_async_service ⟨1, "svc"⟩).srv.register_async_service
        ⟨1, "svc"⟩).ret = false)
    ∧ (((GrpcServer.fresh.register_async_service ⟨1, "svc"⟩).srv.register_async_service
        ⟨2, "svc"⟩).ret = true) :=
  services_keyed_by_pointer_identity GrpcServer.fresh ⟨1, "svc"⟩ ⟨2, "svc"⟩ rfl rfl
    (by decide) rfl
